import Mathlib

/-!
Verification of the NBA player-prop pipeline core: the signal framework
(src/signals/*.py), the edge calculator (src/edge_calculator.py) and the
settlement engine (src/settlement.py), embedded shallowly in Lean.

Conventions of the embedding:
* Python floats are modelled as rationals; all decision thresholds in the code
  are decimal literals, so every branch condition is exact here.
* Python dataclass construction of SignalResult runs a clamping post-init;
  this is the single constructor function SignalResult.make.
* The PropContext dataclass (src/signals/base.py, lines 57-104) defines exactly
  the fields below.  Several signal methods read attributes that this dataclass
  does not define (reb_frequency, contested_reb_pct, uncontested_reb_pct,
  opponent_dreb_pct, opponent_oreb_pct, pass_to_ast_rate); in Python such an
  access raises AttributeError.  Signal calculation is therefore embedded as
  Except String SignalResult, where an error value is a raised exception with
  its message.
* Evidence strings are embedded up to the numeric interpolation performed by
  Python f-strings: the fixed descriptive part is kept, formatted numbers are
  dropped.
* raw_data dictionaries are diagnostic only and are not modelled.
-/

namespace NBASGP

/-- Python max(lo, min(hi, v)), the clamp used by BaseSignal and post-init. -/
def clampQ (lo hi v : ℚ) : ℚ := max lo (min hi v)

/-- PropContext dataclass from src/signals/base.py lines 57-104 (all fields). -/
structure PropContext where
  player_id : Int
  player_name : String
  team : String
  team_id : Int
  stat_type : String
  line : ℚ
  over_odds : Int := -110
  under_odds : Int := -110
  games_played : ℚ := 0
  minutes_per_game : ℚ := 0
  usage_pct : ℚ := 0
  season_avg : ℚ := 0
  recent_avg : ℚ := 0
  recent_minutes : ℚ := 0
  opponent_team : String := ""
  opponent_team_id : Int := 0
  opponent_def_rating : ℚ := 112
  opponent_pace : ℚ := 99
  game_date : String := ""
  is_home : Bool := true
  is_b2b : Bool := false
  is_3_in_4 : Bool := false
  game_total : Option ℚ := none
  spread : Option ℚ := none
  is_high_value : Bool := false
deriving DecidableEq

/-- SignalResult dataclass from src/signals/base.py. -/
structure SignalResult where
  signal_type : String
  strength : ℚ
  confidence : ℚ
  evidence : String
deriving DecidableEq

/-- SignalResult construction; the dataclass post-init clamps strength to
[-1, 1] and confidence to [0, 1]. -/
def SignalResult.make (t : String) (s c : ℚ) (e : String) : SignalResult :=
  ⟨t, clampQ (-1) 1 s, clampQ 0 1 c, e⟩

/-- SignalResult.direction property: over exactly when strength > 0. -/
def SignalResult.direction (r : SignalResult) : String :=
  if r.strength > 0 then "over" else "under"

/-! ## LineValueSignal (src/signals/line_value_signal.py) -/

/-- LineValueSignal confidence from games played, high-value flag, deviation
penalty and recent-data bonus. -/
def lineValueConfidence (ctx : PropContext) (deviation_pct : ℚ) : ℚ :=
  let c : ℚ := 1/2
  let c := c + min (ctx.games_played / 20) 1 * (2/10)
  let c := if ctx.is_high_value then c + 1/10 else c
  let c := if deviation_pct > 25/100 then c - 15/100 else c
  let c := if ctx.recent_avg > 0 then c + 1/10 else c
  clampQ 0 1 c

/-- Body of LineValueSignal.calculate after the blended expected value has
been chosen. -/
def lineValueFromExpected (ctx : PropContext) (expected : ℚ) :
    Except String SignalResult :=
  if expected = 0 then
    .ok (SignalResult.make "line_value" 0 0 "Expected value is zero")
  else
    let deviation := (expected - ctx.line) / expected
    let deviation_pct := |deviation|
    if deviation_pct < 5/100 then
      .ok (SignalResult.make "line_value" 0 (2/10) "Line is close to expected")
    else
      let capped := min deviation_pct (30/100)
      let magnitude := (capped - 5/100) / (30/100 - 5/100)
      let strength := if deviation > 0 then magnitude else -magnitude
      .ok (SignalResult.make "line_value" (clampQ (-1) 1 strength)
        (lineValueConfidence ctx deviation_pct) "Line vs expected deviation")

/-- LineValueSignal.calculate: blend recent and season averages 60/40, fall
back to whichever is positive, neutral zero-confidence result if neither. -/
def lineValueCalculate (ctx : PropContext) : Except String SignalResult :=
  if ctx.recent_avg > 0 ∧ ctx.season_avg > 0 then
    lineValueFromExpected ctx (ctx.recent_avg * (6/10) + ctx.season_avg * (4/10))
  else if ctx.recent_avg > 0 then
    lineValueFromExpected ctx ctx.recent_avg
  else if ctx.season_avg > 0 then
    lineValueFromExpected ctx ctx.season_avg
  else
    .ok (SignalResult.make "line_value" 0 0 "Insufficient data for line value analysis")

/-! ## TrendSignal (src/signals/trend_signal.py) -/

/-- TrendSignal confidence from sample size, extreme-trend penalty, minutes
stability and high-value bonus. -/
def trendConfidence (ctx : PropContext) (trend_magnitude minutes_trend : ℚ) : ℚ :=
  let c : ℚ := 1/2
  let c := c + min (ctx.games_played / 20) 1 * (15/100)
  let c := if trend_magnitude > 30/100 then c - 15/100 else c
  let c := if |minutes_trend| < 5/100 then c + 1/10 else c
  let c := if ctx.is_high_value then c + 1/10 else c
  clampQ 0 1 c

/-- TrendSignal.calculate: recent-vs-season trend with minutes-trend
amplification (x1.1 same direction) and damping (x0.85 opposite by more
than 10 percent). -/
def trendCalculate (ctx : PropContext) : Except String SignalResult :=
  if ctx.season_avg ≤ 0 ∨ ctx.recent_avg ≤ 0 then
    .ok (SignalResult.make "trend" 0 0 "Insufficient data for trend analysis")
  else
    let trend_pct := (ctx.recent_avg - ctx.season_avg) / ctx.season_avg
    let abs_trend := |trend_pct|
    let minutes_trend :=
      if ctx.minutes_per_game > 0 ∧ ctx.recent_minutes > 0 then
        (ctx.recent_minutes - ctx.minutes_per_game) / ctx.minutes_per_game
      else 0
    if abs_trend < 1/10 then
      .ok (SignalResult.make "trend" 0 (2/10) "Stable performance")
    else
      let capped := min abs_trend (4/10)
      let magnitude := (capped - 1/10) / (4/10 - 1/10)
      let strength := if trend_pct > 0 then magnitude else -magnitude
      let strength :=
        if minutes_trend * trend_pct > 0 then strength * (11/10)
        else if |minutes_trend| > 1/10 ∧ minutes_trend * trend_pct < 0 then
          strength * (85/100)
        else strength
      .ok (SignalResult.make "trend" (clampQ (-1) 1 strength)
        (trendConfidence ctx abs_trend minutes_trend) "Trending")

/-! ## UsageSignal (src/signals/usage_signal.py) -/

/-- UsageSignal._calculate_usage_score: tiered mapping of usage percent. -/
def usageScore (usage_pct : ℚ) : ℚ :=
  if usage_pct ≥ 30 then 1
  else if usage_pct ≥ 25 then 6/10 + (usage_pct - 25) / (30 - 25) * (4/10)
  else if usage_pct ≥ 15 then (usage_pct - 15) / (25 - 15) * (6/10)
  else max 0 (usage_pct / 15 * (2/10))

/-- UsageSignal._calculate_minutes_score: tiered mapping of minutes. -/
def minutesScore (minutes : ℚ) : ℚ :=
  if minutes ≥ 32 then 1
  else if minutes ≥ 28 then 6/10 + (minutes - 28) / (32 - 28) * (4/10)
  else max 0 (minutes / 28 * (6/10))

/-- UsageSignal._evaluate_line_vs_opportunity, with the Python fallthrough to
the final line_vs_recent * 0.3 return when no inner branch returns. -/
def evaluateLineVsOpportunity (ctx : PropContext) (opportunity_score : ℚ) : ℚ :=
  if ctx.recent_avg ≤ 0 ∨ ctx.line ≤ 0 then 0
  else
    let line_vs_recent := (ctx.recent_avg - ctx.line) / ctx.recent_avg
    if opportunity_score ≥ 7/10 then
      if line_vs_recent > 5/100 then opportunity_score * (5/10)
      else if line_vs_recent < -(1/10) then -(2/10)
      else line_vs_recent * (3/10)
    else if opportunity_score < 4/10 then
      if line_vs_recent > 1/10 then 1/10
      else if line_vs_recent < -(5/100) then -opportunity_score * (3/10)
      else line_vs_recent * (3/10)
    else line_vs_recent * (3/10)

/-- UsageSignal._calculate_confidence. -/
def usageConfidence (ctx : PropContext) (usage_score minutes_score : ℚ) : ℚ :=
  let c : ℚ := 4/10
  let c := c + usage_score * (2/10)
  let c := c + minutes_score * (15/100)
  let c :=
    if ctx.games_played ≥ 20 then c + 15/100
    else if ctx.games_played ≥ 10 then c + 8/100
    else c
  let c := if ctx.is_high_value then c + 1/10 else c
  clampQ 0 1 c

/-- UsageSignal.calculate.  For stat_type rebounds the code dispatches to
_calculate_rebounds_usage, whose first statement reads ctx.reb_frequency, a
field the PropContext dataclass does not define, so Python raises
AttributeError before any result can be built. -/
def usageCalculate (ctx : PropContext) : Except String SignalResult :=
  if ctx.stat_type = "rebounds" then
    .error "AttributeError: PropContext object has no attribute reb_frequency"
  else if ctx.usage_pct ≤ 0 ∨ ctx.minutes_per_game ≤ 0 then
    .ok (SignalResult.make "usage" 0 0 "Insufficient usage/minutes data")
  else
    let usage_score := usageScore ctx.usage_pct
    let minutes_score := minutesScore ctx.minutes_per_game
    let opportunity_score := usage_score * (6/10) + minutes_score * (4/10)
    let strength := evaluateLineVsOpportunity ctx opportunity_score
    .ok (SignalResult.make "usage" (clampQ (-1) 1 strength)
      (usageConfidence ctx usage_score minutes_score) "usage and minutes tier")

/-! ## MatchupSignal (src/signals/matchup_signal.py) -/

/-- MatchupSignal._pace_adjustment. -/
def paceAdjustment (pace : ℚ) : ℚ :=
  if pace ≤ 0 then 0 else (pace - 995/10) / 60

/-- MatchupSignal impact_map lookup with 0.8 default. -/
def matchupImpactMult (stat : String) : ℚ :=
  if stat = "points" then 1
  else if stat = "threes" then 9/10
  else if stat = "fgm" then 9/10
  else if stat = "ftm" then 7/10
  else if stat = "pra" then 85/100
  else if stat = "pr" then 75/100
  else if stat = "pa" then 85/100
  else 8/10

/-- MatchupSignal._calculate_confidence for scoring matchups. -/
def matchupConfidence (ctx : PropContext) (def_diff impact_mult : ℚ) : ℚ :=
  let c : ℚ := 1/2
  let c :=
    if def_diff ≥ 5 then c + 15/100
    else if def_diff ≥ 3 then c + 8/100
    else c
  let c := c + impact_mult * (1/10)
  let c := if ctx.is_high_value then c + 1/10 else c
  let c := if ctx.opponent_team ≠ "" then c + 5/100 else c
  clampQ 0 1 c

/-- MatchupSignal._calculate_scoring_matchup (points, threes and other
scoring stats): defensive-rating differential scaled by the per-stat impact
multiplier plus a pace adjustment. -/
def matchupScoring (ctx : PropContext) : Except String SignalResult :=
  if ctx.opponent_def_rating ≤ 0 then
    .ok (SignalResult.make "matchup" 0 0 "No opponent defensive data")
  else
    let def_diff := ctx.opponent_def_rating - 112
    let impact_mult := matchupImpactMult ctx.stat_type
    let base_strength := def_diff / 12 * impact_mult
    let strength := base_strength + paceAdjustment ctx.opponent_pace
    .ok (SignalResult.make "matchup" (clampQ (-1) 1 strength)
      (matchupConfidence ctx |def_diff| impact_mult) "vs opponent defense tier")

/-- MatchupSignal.calculate.  The rebounds branch reads ctx.opponent_dreb_pct
as its first statement and the assists branch reads ctx.pass_to_ast_rate once
opponent_def_rating > 0; neither field exists on the PropContext dataclass, so
those paths raise AttributeError in Python. -/
def matchupCalculate (ctx : PropContext) : Except String SignalResult :=
  if ctx.stat_type = "rebounds" then
    .error "AttributeError: PropContext object has no attribute opponent_dreb_pct"
  else if ctx.stat_type = "assists" then
    if ctx.opponent_def_rating ≤ 0 then
      .ok (SignalResult.make "matchup" 0 0 "No opponent defensive data")
    else
      .error "AttributeError: PropContext object has no attribute pass_to_ast_rate"
  else matchupScoring ctx

/-! ## EnvironmentSignal (src/signals/environment_signal.py) -/

/-- EnvironmentSignal B2B_IMPACT lookup with -0.15 default. -/
def b2bImpact (stat : String) : ℚ :=
  if stat = "points" then -(25/100)
  else if stat = "rebounds" then -(15/100)
  else if stat = "assists" then -(15/100)
  else if stat = "threes" then -(2/10)
  else if stat = "blocks" then -(1/10)
  else if stat = "steals" then -(1/10)
  else if stat = "turnovers" then 1/10
  else if stat = "pra" then -(2/10)
  else if stat = "pr" then -(2/10)
  else if stat = "pa" then -(2/10)
  else if stat = "ra" then -(15/100)
  else if stat = "fgm" then -(2/10)
  else if stat = "ftm" then -(15/100)
  else -(15/100)

/-- EnvironmentSignal._blowout_risk from the spread seen from the team side. -/
def blowoutRisk (spread : ℚ) (is_home : Bool) : ℚ :=
  let team_spread := if is_home then spread else -spread
  if team_spread < -12 then -(1/10)
  else if team_spread < -8 then -(5/100)
  else if team_spread > 12 then -(8/100)
  else if team_spread > 8 then -(4/100)
  else 0

/-- EnvironmentSignal._calculate_confidence. -/
def environmentConfidence (ctx : PropContext) : ℚ :=
  let c : ℚ := 1/2
  let c := if ctx.is_b2b then c + 15/100 else c
  let c := if ctx.is_high_value then c + 1/10 else c
  let c := if ctx.spread.isSome then c + 5/100 else c
  clampQ 0 1 c

/-- EnvironmentSignal.calculate: additive impacts (B2B with 1.5x multiplier
when also 3-in-4, +5 percent home bonus, blowout risk when above the 3 percent
noise floor), zeroed when the net impact is below 3 percent. -/
def environmentCalculate (ctx : PropContext) : Except String SignalResult :=
  let b2b_total : ℚ :=
    if ctx.is_b2b then
      (if ctx.is_3_in_4 then b2bImpact ctx.stat_type * (15/10)
       else b2bImpact ctx.stat_type)
    else 0
  let home_total : ℚ := b2b_total + (if ctx.is_home then 5/100 else 0)
  let blowout : ℚ :=
    match ctx.spread with
    | some sp =>
      if |blowoutRisk sp ctx.is_home| > 3/100 then blowoutRisk sp ctx.is_home
      else 0
    | none => 0
  let total_impact := home_total + blowout
  if |total_impact| < 3/100 then
    .ok (SignalResult.make "environment" 0 (3/10) "No significant environmental factors")
  else
    .ok (SignalResult.make "environment" (clampQ (-1) 1 total_impact)
      (environmentConfidence ctx) "environmental factors")

/-! ## CorrelationSignal (src/signals/correlation_signal.py) -/

/-- CorrelationSignal STAT_TOTAL_CORRELATION lookup with 0.5 default. -/
def statTotalCorrelation (stat : String) : ℚ :=
  if stat = "points" then 9/10
  else if stat = "threes" then 8/10
  else if stat = "assists" then 7/10
  else if stat = "rebounds" then 1/2
  else if stat = "turnovers" then 4/10
  else if stat = "steals" then 4/10
  else if stat = "blocks" then 3/10
  else if stat = "pra" then 8/10
  else if stat = "pr" then 7/10
  else if stat = "pa" then 8/10
  else if stat = "ra" then 6/10
  else if stat = "fgm" then 85/100
  else if stat = "ftm" then 6/10
  else 1/2

/-- CorrelationSignal._calculate_confidence. -/
def correlationConfidence (ctx : PropContext) (total_diff correlation : ℚ) : ℚ :=
  let c : ℚ := 4/10
  let c :=
    if total_diff ≥ 10 then c + 15/100
    else if total_diff ≥ 5 then c + 8/100
    else c
  let c := c + correlation * (1/10)
  let c := if ctx.is_high_value then c + 5/100 else c
  clampQ 0 1 c

/-- CorrelationSignal.calculate: game-total deviation from the 223 league
average scaled by the per-stat correlation, amplified 1.2x at extreme
totals. -/
def correlationCalculate (ctx : PropContext) : Except String SignalResult :=
  match ctx.game_total with
  | none => .ok (SignalResult.make "correlation" 0 0 "No game total available")
  | some total =>
    if total ≤ 0 then
      .ok (SignalResult.make "correlation" 0 0 "No game total available")
    else
      let total_diff := total - 223
      let correlation := statTotalCorrelation ctx.stat_type
      let base_strength := total_diff / 30 * correlation
      let base_strength :=
        if total ≥ 238 then base_strength * (12/10)
        else if total ≤ 208 then base_strength * (12/10)
        else base_strength
      .ok (SignalResult.make "correlation" (clampQ (-1) 1 base_strength)
        (correlationConfidence ctx |total_diff| correlation) "Game total tier")

/-! ## EdgeCalculator (src/edge_calculator.py) -/

/-- EdgeResult dataclass. -/
structure EdgeResult where
  player_name : String
  stat_type : String
  line : ℚ
  edge_score : ℚ
  confidence : ℚ
  direction : String
  signals : List SignalResult
  recommendation : String
  expected_value : ℚ
  is_high_value : Bool
  over_odds : Int
  under_odds : Int
deriving DecidableEq

/-- The six signal instances of EdgeCalculator.__init__, in construction
order, each paired with its name. -/
def signalCalcs : List (String × (PropContext → Except String SignalResult)) :=
  [("line_value", lineValueCalculate),
   ("trend", trendCalculate),
   ("usage", usageCalculate),
   ("matchup", matchupCalculate),
   ("environment", environmentCalculate),
   ("correlation", correlationCalculate)]

/-- The try/except around signal.calculate inside calculate_edge: a raised
exception is caught and replaced by a neutral SignalResult whose evidence
carries the error text. -/
def runSignal (name : String) (calcFn : PropContext → Except String SignalResult)
    (ctx : PropContext) : SignalResult :=
  match calcFn ctx with
  | .ok r => r
  | .error e => SignalResult.make name 0 0 ("Error: " ++ e)

/-- The signal_results list collected by the calculate_edge loop, paired with
each signal name for the weighting step. -/
def namedResults (ctx : PropContext) : List (String × SignalResult) :=
  signalCalcs.map (fun p => (p.1, runSignal p.1 p.2 ctx))

/-- Python dict lookup dict.get(key): first pair with the given key. -/
def assocFind? {α : Type} : List (String × α) → String → Option α
  | [], _ => none
  | p :: rest, key => if p.1 = key then some p.2 else assocFind? rest key

/-- STAT_WEIGHTS entry for points. -/
def pointsWeights : List (String × ℚ) :=
  [("environment", 15/100), ("correlation", 2/10), ("usage", 15/100),
   ("trend", 2/10), ("line_value", 15/100), ("matchup", 15/100)]

/-- STAT_WEIGHTS entry for rebounds. -/
def reboundsWeights : List (String × ℚ) :=
  [("environment", 4/10), ("line_value", 25/100), ("trend", 2/10),
   ("correlation", 15/100), ("matchup", 0), ("usage", 0)]

/-- STAT_WEIGHTS entry for assists. -/
def assistsWeights : List (String × ℚ) :=
  [("matchup", 2/10), ("line_value", 2/10), ("trend", 15/100),
   ("usage", 15/100), ("correlation", 15/100), ("environment", 15/100)]

/-- STAT_WEIGHTS entry for threes. -/
def threesWeights : List (String × ℚ) :=
  [("line_value", 25/100), ("trend", 2/10), ("correlation", 2/10),
   ("matchup", 15/100), ("environment", 1/10), ("usage", 1/10)]

/-- STAT_WEIGHTS entry for the _default key. -/
def defaultWeights : List (String × ℚ) :=
  [("line_value", 25/100), ("trend", 2/10), ("correlation", 2/10),
   ("matchup", 15/100), ("usage", 1/10), ("environment", 1/10)]

/-- The STAT_WEIGHTS table keyed by stat type. -/
def STAT_WEIGHTS : List (String × List (String × ℚ)) :=
  [("points", pointsWeights), ("rebounds", reboundsWeights),
   ("assists", assistsWeights), ("threes", threesWeights),
   ("_default", defaultWeights)]

/-- EdgeCalculator._get_weights_for_stat: table lookup with the _default
fallback. -/
def getWeightsForStat (stat : String) : List (String × ℚ) :=
  match assocFind? STAT_WEIGHTS stat with
  | some ws => ws
  | none => defaultWeights

/-- weights.get(signal.name, 0.0). -/
def weightOf (ws : List (String × ℚ)) (name : String) : ℚ :=
  (assocFind? ws name).getD 0

/-- The calculate_edge accumulation loop: for each (name, result) pair with a
positive stat-specific weight, accumulate weighted strength, weighted
confidence and total weight.  Addition over these exact rationals is
commutative, so accumulating from the tail gives the same three sums as the
Python left-to-right loop. -/
def weightedTotals (ws : List (String × ℚ)) :
    List (String × SignalResult) → ℚ × ℚ × ℚ
  | [] => (0, 0, 0)
  | p :: rest =>
    let t := weightedTotals ws rest
    let w := weightOf ws p.1
    if w > 0 then
      (t.1 + p.2.strength * w, t.2.1 + p.2.confidence * w, t.2.2 + w)
    else t

/-- EdgeCalculator._get_signal_strength: first result with the given
signal_type, none when absent (or when the list is empty). -/
def getSignalStrength (signal_results : List SignalResult) (name : String) :
    Option ℚ :=
  (signal_results.find? (fun s => s.signal_type = name)).map (·.strength)

/-- The standard recommendation tiering at the end of _get_recommendation,
reached for unrestricted stat types and by fallthrough from the rebounds
override. -/
def standardRecommendation (abs_edge confidence : ℚ) (direction : String)
    (is_high_value : Bool) : String :=
  if abs_edge ≥ 25/100 ∧ confidence ≥ 55/100 then "strong_" ++ direction
  else if abs_edge ≥ 15/100 ∧ confidence ≥ 1/2 then "lean_" ++ direction
  else if abs_edge ≥ 8/100 ∧ is_high_value then "slight_" ++ direction
  else "pass"

/-- EdgeCalculator._get_recommendation: minimum confidence 0.40 and minimum
edge 0.08 gates, then the rebounds environment-alignment override and the
assists raised-edge override, then the standard tiering. -/
def getRecommendation (edge_score confidence : ℚ) (ctx : PropContext)
    (signal_results : List SignalResult) : String :=
  let abs_edge := |edge_score|
  let direction := if edge_score > 0 then "over" else "under"
  if confidence < 4/10 then "pass"
  else if abs_edge < 8/100 then "pass"
  else if ctx.stat_type = "rebounds" then
    match getSignalStrength signal_results "environment" with
    | none => "pass"
    | some env_signal =>
      if |env_signal| < 5/100 then "pass"
      else if direction = "over" then
        if ¬ env_signal > 0 then "pass"
        else if abs_edge ≥ 8/100 ∧ confidence ≥ 4/10 then
          (if abs_edge ≥ 15/100 then "strong_over" else "lean_over")
        else standardRecommendation abs_edge confidence direction ctx.is_high_value
      else
        if env_signal > 0 then "pass"
        else if abs_edge ≥ 15/100 ∧ confidence ≥ 1/2 then "lean_under"
        else standardRecommendation abs_edge confidence direction ctx.is_high_value
  else if ctx.stat_type = "assists" then
    if abs_edge < 15/100 then "pass"
    else standardRecommendation abs_edge confidence direction ctx.is_high_value
  else standardRecommendation abs_edge confidence direction ctx.is_high_value

/-- EdgeCalculator._calculate_ev: American odds to implied probability, edge
nudge clamped to [0.01, 0.99], then EV against decimal odds. -/
def calcEV (edge_magnitude confidence : ℚ) (odds : Int) : ℚ :=
  let implied_prob : ℚ :=
    if odds ≥ 0 then 100 / ((odds : ℚ) + 100)
    else |(odds : ℚ)| / (|(odds : ℚ)| + 100)
  let est_prob := implied_prob + edge_magnitude * confidence * (1/10)
  let est_prob := max (1/100) (min (99/100) est_prob)
  let decimal_odds : ℚ :=
    if odds ≥ 0 then 1 + (odds : ℚ) / 100
    else 1 + 100 / |(odds : ℚ)|
  est_prob * (decimal_odds - 1) - (1 - est_prob)

/-- EdgeCalculator.calculate_edge: run all six signals with error isolation,
aggregate with the stat-specific weights, derive direction, recommendation
and expected value. -/
def calculateEdge (ctx : PropContext) : EdgeResult :=
  let weights := getWeightsForStat ctx.stat_type
  let named := namedResults ctx
  let signal_results := named.map (·.2)
  let totals := weightedTotals weights named
  let edge_score := if totals.2.2 > 0 then totals.1 else 0
  let confidence := if totals.2.2 > 0 then totals.2.1 / totals.2.2 else 0
  let direction := if edge_score > 0 then "over" else "under"
  let recommendation := getRecommendation edge_score confidence ctx signal_results
  let odds := if direction = "over" then ctx.over_odds else ctx.under_odds
  let expected_value := calcEV |edge_score| confidence odds
  { player_name := ctx.player_name
    stat_type := ctx.stat_type
    line := ctx.line
    edge_score := edge_score
    confidence := confidence
    direction := direction
    signals := signal_results
    recommendation := recommendation
    expected_value := expected_value
    is_high_value := ctx.is_high_value
    over_odds := ctx.over_odds
    under_odds := ctx.under_odds }

/-! ## SettlementEngine (src/settlement.py) -/

/-- Graded result of a leg. -/
inductive LegResult
  | WIN
  | LOSS
  | PUSH
  | VOID
deriving DecidableEq

/-- A STAT_MAPPING entry: a single box-score column or a combo summed over
several columns. -/
inductive StatCols
  | single (col : String)
  | combo (cols : List String)
deriving DecidableEq

/-- STAT_MAPPING from src/settlement.py. -/
def STAT_MAPPING : List (String × StatCols) :=
  [("points", .single "PTS"), ("rebounds", .single "REB"),
   ("assists", .single "AST"), ("steals", .single "STL"),
   ("blocks", .single "BLK"), ("threes", .single "FG3M"),
   ("turnovers", .single "TO"), ("fgm", .single "FGM"),
   ("ftm", .single "FTM"), ("minutes", .single "MIN"),
   ("pra", .combo ["PTS", "REB", "AST"]), ("pr", .combo ["PTS", "REB"]),
   ("pa", .combo ["PTS", "AST"]), ("ra", .combo ["REB", "AST"]),
   ("blocks_steals", .combo ["BLK", "STL"])]

/-- stats.get(key, 0) on a box-score stat record. -/
def statGet (stats : List (String × ℚ)) (col : String) : ℚ :=
  (assocFind? stats col).getD 0

/-- SettlementEngine._get_stat_value: none for an unknown stat type, sum of
the component columns for a combo stat, plain get with default 0 otherwise. -/
def getStatValue (stats : List (String × ℚ)) (stat_type : String) : Option ℚ :=
  match assocFind? STAT_MAPPING stat_type with
  | none => none
  | some (.single col) => some (statGet stats col)
  | some (.combo cols) => some (cols.foldl (fun a c => a + statGet stats c) 0)

/-- A parlay leg as read by _settle_leg. -/
structure Leg where
  player_name : String
  stat_type : String
  line : ℚ
  direction : String := "over"
deriving DecidableEq

/-- The actual_value/result pair returned by _settle_leg. -/
structure LegOutcome where
  actual_value : Option ℚ
  result : LegResult
deriving DecidableEq

/-- SettlementEngine._settle_leg after box-score player matching: the stats
argument is the outcome of the exact-normalized-name then fuzzy lookup
(none when the player could not be matched).  VOID with actual 0 when the
matched player logged zero minutes, VOID when the stat type is unknown,
otherwise PUSH on equality and WIN/LOSS by direction. -/
def settleLeg (leg : Leg) (stats : Option (List (String × ℚ))) : LegOutcome :=
  match stats with
  | none => ⟨none, .VOID⟩
  | some st =>
    if statGet st "minutes" = 0 then ⟨some 0, .VOID⟩
    else
      match getStatValue st leg.stat_type with
      | none => ⟨none, .VOID⟩
      | some actual =>
        if actual = leg.line then ⟨some actual, .PUSH⟩
        else if leg.direction = "over" then
          ⟨some actual, if actual > leg.line then .WIN else .LOSS⟩
        else
          ⟨some actual, if actual < leg.line then .WIN else .LOSS⟩

/-- Graded result of a parlay. -/
inductive ParlayResult
  | WIN
  | LOSS
  | VOID
deriving DecidableEq

/-- The parlay-result derivation inside _settle_parlay: all legs VOID first,
then any LOSS, then the no-LOSS WIN/PUSH/VOID mix, with a final LOSS
fallback. -/
def settleParlayResult (results : List LegResult) : ParlayResult :=
  if results.all (fun r => decide (r = .VOID)) then .VOID
  else if results.any (fun r => decide (r = .LOSS)) then .LOSS
  else if results.all (fun r => decide (r = .WIN ∨ r = .PUSH ∨ r = .VOID)) then .WIN
  else .LOSS

/-- legs_hit: the number of WIN legs. -/
def legsHit (results : List LegResult) : Nat :=
  results.countP (fun r => decide (r = .WIN))

/-- SettlementEngine._calculate_profit at a $100 stake. -/
def calculateProfit (result : ParlayResult) (odds : Int) : ℚ :=
  if result ≠ .WIN then (if result = .LOSS then -100 else 0)
  else if odds ≥ 0 then (odds : ℚ)
  else 100 * 100 / |(odds : ℚ)|

/-! ## Concrete inputs used in closed evaluations -/

/-- A rebounds prop context: strong line-value edge, neutral environment. -/
def ctxRebounds : PropContext :=
  { player_id := 1, player_name := "Test Rebounder", team := "AAA", team_id := 1,
    stat_type := "rebounds", line := 5, games_played := 20, season_avg := 10,
    recent_avg := 10, is_home := false, is_high_value := true }

/-- An assists prop context with the default opponent defensive rating. -/
def ctxAssists : PropContext :=
  { player_id := 2, player_name := "Test Passer", team := "BBB", team_id := 2,
    stat_type := "assists", line := 7 }

/-- A high-value points prop context. -/
def ctxPointsHV : PropContext :=
  { player_id := 4, player_name := "Test Star", team := "DDD", team_id := 4,
    stat_type := "points", line := 25, is_high_value := true }

/-- A points prop context on which every signal is neutral, so the weighted
edge score is exactly zero. -/
def ctxNeutral : PropContext :=
  { player_id := 3, player_name := "Test Scorer", team := "CCC", team_id := 3,
    stat_type := "points", line := 20, is_home := false, opponent_pace := 199/2 }

/-- A leg landing exactly on its line. -/
def legPush : Leg :=
  { player_name := "Test Scorer", stat_type := "points", line := 10 }

/-- Box-score row for a player with 30 minutes and 10 points. -/
def statsPush : List (String × ℚ) := [("minutes", 30), ("PTS", 10)]

/-- The range invariant of a constructed SignalResult. -/
def Clamped (r : SignalResult) : Prop :=
  -1 ≤ r.strength ∧ r.strength ≤ 1 ∧ 0 ≤ r.confidence ∧ r.confidence ≤ 1

/-- The total included weight depends only on the signal names, not on the
results; used to evaluate the total-weight component per weight table. -/
def includedWeight (ws : List (String × ℚ)) : List String → ℚ
  | [] => 0
  | n :: rest =>
    if weightOf ws n > 0 then includedWeight ws rest + weightOf ws n
    else includedWeight ws rest

/-! ## Helper lemmas -/

theorem clampQ_le_hi (lo hi v : ℚ) (h : lo ≤ hi) : clampQ lo hi v ≤ hi :=
  max_le h (min_le_left _ _)

theorem clampQ_ge_lo (lo hi v : ℚ) : lo ≤ clampQ lo hi v :=
  le_max_left _ _

theorem make_clamped (t : String) (s c : ℚ) (e : String) :
    Clamped (SignalResult.make t s c e) :=
  ⟨clampQ_ge_lo _ _ _, clampQ_le_hi _ _ _ (by norm_num),
   clampQ_ge_lo _ _ _, clampQ_le_hi _ _ _ (by norm_num)⟩

theorem lineValueFromExpected_ok (ctx : PropContext) (x : ℚ) (r : SignalResult)
    (h : lineValueFromExpected ctx x = .ok r) :
    r.signal_type = "line_value" ∧ Clamped r := by
  simp only [lineValueFromExpected] at h
  split_ifs at h <;> (injection h with h; subst h; exact ⟨rfl, make_clamped ..⟩)

theorem lineValue_ok (ctx : PropContext) (r : SignalResult)
    (h : lineValueCalculate ctx = .ok r) :
    r.signal_type = "line_value" ∧ Clamped r := by
  simp only [lineValueCalculate] at h
  split_ifs at h
  · exact lineValueFromExpected_ok _ _ _ h
  · exact lineValueFromExpected_ok _ _ _ h
  · exact lineValueFromExpected_ok _ _ _ h
  · injection h with h; subst h; exact ⟨rfl, make_clamped ..⟩

theorem trend_ok (ctx : PropContext) (r : SignalResult)
    (h : trendCalculate ctx = .ok r) :
    r.signal_type = "trend" ∧ Clamped r := by
  simp only [trendCalculate] at h
  split_ifs at h <;> (injection h with h; subst h; exact ⟨rfl, make_clamped ..⟩)

theorem usage_ok (ctx : PropContext) (r : SignalResult)
    (h : usageCalculate ctx = .ok r) :
    r.signal_type = "usage" ∧ Clamped r := by
  simp only [usageCalculate] at h
  split_ifs at h <;> (injection h with h; subst h; exact ⟨rfl, make_clamped ..⟩)

theorem matchup_ok (ctx : PropContext) (r : SignalResult)
    (h : matchupCalculate ctx = .ok r) :
    r.signal_type = "matchup" ∧ Clamped r := by
  simp only [matchupCalculate, matchupScoring] at h
  split_ifs at h <;> (injection h with h; subst h; exact ⟨rfl, make_clamped ..⟩)

theorem environment_ok (ctx : PropContext) (r : SignalResult)
    (h : environmentCalculate ctx = .ok r) :
    r.signal_type = "environment" ∧ Clamped r := by
  simp only [environmentCalculate] at h
  split_ifs at h <;> (injection h with h; subst h; exact ⟨rfl, make_clamped ..⟩)

theorem correlation_ok (ctx : PropContext) (r : SignalResult)
    (h : correlationCalculate ctx = .ok r) :
    r.signal_type = "correlation" ∧ Clamped r := by
  cases hg : ctx.game_total with
  | none =>
    simp only [correlationCalculate, hg] at h
    injection h with h; subst h; exact ⟨rfl, make_clamped ..⟩
  | some total =>
    simp only [correlationCalculate, hg] at h
    split_ifs at h <;> (injection h with h; subst h; exact ⟨rfl, make_clamped ..⟩)

theorem runSignal_ok (name : String)
    (calcFn : PropContext → Except String SignalResult) (ctx : PropContext)
    (h : ∀ r, calcFn ctx = .ok r → r.signal_type = name ∧ Clamped r) :
    (runSignal name calcFn ctx).signal_type = name
      ∧ Clamped (runSignal name calcFn ctx) := by
  cases hc : calcFn ctx with
  | ok r =>
    simp only [runSignal, hc]
    exact h r hc
  | error e =>
    simp only [runSignal, hc]
    exact ⟨rfl, make_clamped ..⟩

theorem namedResults_ok (ctx : PropContext) :
    ∀ p ∈ namedResults ctx, p.2.signal_type = p.1 ∧ Clamped p.2 := by
  intro p hp
  simp only [namedResults, signalCalcs, List.map_cons, List.map_nil,
    List.mem_cons, List.not_mem_nil, or_false] at hp
  rcases hp with rfl | rfl | rfl | rfl | rfl | rfl
  · exact runSignal_ok _ _ _ (lineValue_ok ctx)
  · exact runSignal_ok _ _ _ (trend_ok ctx)
  · exact runSignal_ok _ _ _ (usage_ok ctx)
  · exact runSignal_ok _ _ _ (matchup_ok ctx)
  · exact runSignal_ok _ _ _ (environment_ok ctx)
  · exact runSignal_ok _ _ _ (correlation_ok ctx)

theorem weightedTotals_bounds (ws : List (String × ℚ))
    (named : List (String × SignalResult))
    (h : ∀ p ∈ named, Clamped p.2) :
    |(weightedTotals ws named).1| ≤ (weightedTotals ws named).2.2
      ∧ 0 ≤ (weightedTotals ws named).2.1
      ∧ (weightedTotals ws named).2.1 ≤ (weightedTotals ws named).2.2
      ∧ 0 ≤ (weightedTotals ws named).2.2 := by
  induction named with
  | nil => simp [weightedTotals]
  | cons p rest ih =>
    have hp := h p (List.mem_cons_self _ _)
    have hrest := ih (fun q hq => h q (List.mem_cons_of_mem _ hq))
    obtain ⟨hs1, hs2, hc1, hc2⟩ := hp
    obtain ⟨h1, h2, h3, h4⟩ := hrest
    simp only [weightedTotals]
    split_ifs with hw
    · dsimp only
      have hsw : |p.2.strength * weightOf ws p.1| ≤ weightOf ws p.1 := by
        rw [abs_mul, abs_of_pos hw]
        nlinarith [abs_le.mpr ⟨hs1, hs2⟩, abs_nonneg p.2.strength]
      refine ⟨?_, ?_, ?_, ?_⟩
      · calc |(weightedTotals ws rest).1 + p.2.strength * weightOf ws p.1|
            ≤ |(weightedTotals ws rest).1| + |p.2.strength * weightOf ws p.1| :=
              abs_add _ _
          _ ≤ (weightedTotals ws rest).2.2 + weightOf ws p.1 := by
              exact add_le_add h1 hsw
      · nlinarith
      · nlinarith
      · nlinarith
    · exact ⟨h1, h2, h3, h4⟩

theorem weightedTotals_tw (ws : List (String × ℚ))
    (named : List (String × SignalResult)) :
    (weightedTotals ws named).2.2 = includedWeight ws (named.map Prod.fst) := by
  induction named with
  | nil => simp [weightedTotals, includedWeight]
  | cons p rest ih =>
    simp only [weightedTotals, includedWeight, List.map_cons]
    split_ifs <;> simp [ih]

theorem namedResults_names (ctx : PropContext) :
    (namedResults ctx).map Prod.fst =
      ["line_value", "trend", "usage", "matchup", "environment", "correlation"] := by
  simp [namedResults, signalCalcs]

theorem getWeightsForStat_cases (stat : String) :
    getWeightsForStat stat = pointsWeights
      ∨ getWeightsForStat stat = reboundsWeights
      ∨ getWeightsForStat stat = assistsWeights
      ∨ getWeightsForStat stat = threesWeights
      ∨ getWeightsForStat stat = defaultWeights := by
  by_cases h1 : "points" = stat
  · subst h1; left; rfl
  by_cases h2 : "rebounds" = stat
  · subst h2; right; left; rfl
  by_cases h3 : "assists" = stat
  · subst h3; right; right; left; rfl
  by_cases h4 : "threes" = stat
  · subst h4; right; right; right; left; rfl
  by_cases h5 : "_default" = stat
  · subst h5; right; right; right; right; rfl
  · right; right; right; right
    simp [getWeightsForStat, STAT_WEIGHTS, assocFind?, h1, h2, h3, h4, h5]

theorem includedWeight_points :
    includedWeight pointsWeights
      ["line_value", "trend", "usage", "matchup", "environment", "correlation"] = 1 := by
  simp [includedWeight, weightOf, pointsWeights, assocFind?]
  norm_num

theorem includedWeight_rebounds :
    includedWeight reboundsWeights
      ["line_value", "trend", "usage", "matchup", "environment", "correlation"] = 1 := by
  simp [includedWeight, weightOf, reboundsWeights, assocFind?]
  norm_num

theorem includedWeight_assists :
    includedWeight assistsWeights
      ["line_value", "trend", "usage", "matchup", "environment", "correlation"] = 1 := by
  simp [includedWeight, weightOf, assistsWeights, assocFind?]
  norm_num

theorem includedWeight_threes :
    includedWeight threesWeights
      ["line_value", "trend", "usage", "matchup", "environment", "correlation"] = 1 := by
  simp [includedWeight, weightOf, threesWeights, assocFind?]
  norm_num

theorem includedWeight_default :
    includedWeight defaultWeights
      ["line_value", "trend", "usage", "matchup", "environment", "correlation"] = 1 := by
  simp [includedWeight, weightOf, defaultWeights, assocFind?]
  norm_num

theorem totalWeight_eq_one (ctx : PropContext) :
    (weightedTotals (getWeightsForStat ctx.stat_type) (namedResults ctx)).2.2 = 1 := by
  rw [weightedTotals_tw, namedResults_names]
  rcases getWeightsForStat_cases ctx.stat_type with h | h | h | h | h <;> rw [h]
  · exact includedWeight_points
  · exact includedWeight_rebounds
  · exact includedWeight_assists
  · exact includedWeight_threes
  · exact includedWeight_default

theorem calculateEdge_edge_score (ctx : PropContext) :
    (calculateEdge ctx).edge_score =
      (if (weightedTotals (getWeightsForStat ctx.stat_type) (namedResults ctx)).2.2 > 0
       then (weightedTotals (getWeightsForStat ctx.stat_type) (namedResults ctx)).1
       else 0) := rfl

theorem calculateEdge_confidence (ctx : PropContext) :
    (calculateEdge ctx).confidence =
      (if (weightedTotals (getWeightsForStat ctx.stat_type) (namedResults ctx)).2.2 > 0
       then (weightedTotals (getWeightsForStat ctx.stat_type) (namedResults ctx)).2.1
              / (weightedTotals (getWeightsForStat ctx.stat_type) (namedResults ctx)).2.2
       else 0) := rfl

theorem calculateEdge_signals (ctx : PropContext) :
    (calculateEdge ctx).signals = (namedResults ctx).map (·.2) := rfl

theorem calculateEdge_recommendation (ctx : PropContext) :
    (calculateEdge ctx).recommendation =
      getRecommendation (calculateEdge ctx).edge_score (calculateEdge ctx).confidence
        ctx ((namedResults ctx).map (·.2)) := rfl

theorem calculateEdge_direction (ctx : PropContext) :
    (calculateEdge ctx).direction =
      (if (calculateEdge ctx).edge_score > 0 then "over" else "under") := rfl

theorem calculateEdge_expected_value (ctx : PropContext) :
    (calculateEdge ctx).expected_value =
      calcEV |(calculateEdge ctx).edge_score| (calculateEdge ctx).confidence
        (if (calculateEdge ctx).direction = "over" then ctx.over_odds
         else ctx.under_odds) := rfl

set_option maxHeartbeats 1000000 in
theorem namedResults_ctxRebounds :
    namedResults ctxRebounds =
      [("line_value", SignalResult.make "line_value" 1 (3/4) "Line vs expected deviation"),
       ("trend", SignalResult.make "trend" 0 (2/10) "Stable performance"),
       ("usage", SignalResult.make "usage" 0 0
         ("Error: " ++ "AttributeError: PropContext object has no attribute reb_frequency")),
       ("matchup", SignalResult.make "matchup" 0 0
         ("Error: " ++ "AttributeError: PropContext object has no attribute opponent_dreb_pct")),
       ("environment", SignalResult.make "environment" 0 (3/10) "No significant environmental factors"),
       ("correlation", SignalResult.make "correlation" 0 0 "No game total available")] := by
  norm_num [namedResults, signalCalcs, runSignal, lineValueCalculate,
    lineValueFromExpected, lineValueConfidence, trendCalculate, trendConfidence,
    usageCalculate, matchupCalculate, environmentCalculate, correlationCalculate,
    SignalResult.make, clampQ, ctxRebounds, abs, max_def, min_def]

set_option maxHeartbeats 1000000 in
theorem edge_ctxRebounds : (calculateEdge ctxRebounds).edge_score = 1/4 := by
  rw [calculateEdge_edge_score, totalWeight_eq_one, if_pos one_pos,
    namedResults_ctxRebounds]
  have hw : getWeightsForStat ctxRebounds.stat_type = reboundsWeights := rfl
  rw [hw]
  simp [weightedTotals, weightOf, reboundsWeights, assocFind?,
    SignalResult.make, clampQ, max_def, min_def]
  norm_num

set_option maxHeartbeats 1000000 in
theorem env_ctxRebounds :
    getSignalStrength (calculateEdge ctxRebounds).signals "environment" = some 0 := by
  rw [calculateEdge_signals, namedResults_ctxRebounds]
  simp [getSignalStrength, SignalResult.make, clampQ, max_def, min_def]

set_option maxHeartbeats 1000000 in
theorem namedResults_ctxNeutral :
    namedResults ctxNeutral =
      [("line_value", SignalResult.make "line_value" 0 0 "Insufficient data for line value analysis"),
       ("trend", SignalResult.make "trend" 0 0 "Insufficient data for trend analysis"),
       ("usage", SignalResult.make "usage" 0 0 "Insufficient usage/minutes data"),
       ("matchup", SignalResult.make "matchup" 0 (6/10) "vs opponent defense tier"),
       ("environment", SignalResult.make "environment" 0 (3/10) "No significant environmental factors"),
       ("correlation", SignalResult.make "correlation" 0 0 "No game total available")] := by
  norm_num [namedResults, signalCalcs, runSignal, lineValueCalculate,
    lineValueFromExpected, lineValueConfidence, trendCalculate, trendConfidence,
    usageCalculate, matchupCalculate, matchupScoring, matchupImpactMult,
    matchupConfidence, paceAdjustment, environmentCalculate, correlationCalculate,
    SignalResult.make, clampQ, ctxNeutral, abs, max_def, min_def]
  simp only [String.reduceEq, reduceIte]
  norm_num [SignalResult.make, clampQ, max_def, min_def]

set_option maxHeartbeats 1000000 in
theorem edge_ctxNeutral : (calculateEdge ctxNeutral).edge_score = 0 := by
  rw [calculateEdge_edge_score, totalWeight_eq_one, if_pos one_pos,
    namedResults_ctxNeutral]
  have hw : getWeightsForStat ctxNeutral.stat_type = pointsWeights := rfl
  rw [hw]
  simp [weightedTotals, weightOf, pointsWeights, assocFind?,
    SignalResult.make, clampQ, max_def, min_def]

theorem rebounds_env_pass (edge conf : ℚ) (ctx : PropContext)
    (rs : List SignalResult) (hstat : ctx.stat_type = "rebounds")
    (henv : getSignalStrength rs "environment" = none ∨
      ∃ v, getSignalStrength rs "environment" = some v ∧ |v| < 5/100) :
    getRecommendation edge conf ctx rs = "pass" := by
  unfold getRecommendation
  by_cases hc : conf < 4/10
  · simp [hc]
  by_cases he : |edge| < 8/100
  · simp [hc, he]
  rcases henv with hnone | ⟨v, hv, hlt⟩
  · simp [hc, he, hstat, hnone]
  · simp [hc, he, hstat, hv, hlt]

theorem assists_raised_floor (edge conf : ℚ) (ctx : PropContext)
    (rs : List SignalResult) (hstat : ctx.stat_type = "assists")
    (h1 : 8/100 ≤ |edge|) (h2 : |edge| < 15/100) :
    getRecommendation edge conf ctx rs = "pass" := by
  unfold getRecommendation
  by_cases hc : conf < 4/10
  · simp [hc]
  · simp [hc, not_lt.mpr h1, hstat, h2]

/-! ## Claims -/

/-- C2: for stat_type rebounds, whenever the environment signal strength is
absent from the result list or has absolute value below 0.05, the
recommendation is pass unconditionally, whatever the edge score and
confidence are; stated both for _get_recommendation over an arbitrary
result list and for the recommendation field computed by calculate_edge. -/
theorem C2_rebounds_neutral_env_pass :
    (∀ (edge conf : ℚ) (ctx : PropContext) (rs : List SignalResult),
      ctx.stat_type = "rebounds" →
      (getSignalStrength rs "environment" = none ∨
        ∃ v, getSignalStrength rs "environment" = some v ∧ |v| < 5/100) →
      getRecommendation edge conf ctx rs = "pass")
    ∧ (∀ ctx : PropContext, ctx.stat_type = "rebounds" →
      (getSignalStrength (calculateEdge ctx).signals "environment" = none ∨
        ∃ v, getSignalStrength (calculateEdge ctx).signals "environment" = some v
          ∧ |v| < 5/100) →
      (calculateEdge ctx).recommendation = "pass") := by
  refine ⟨rebounds_env_pass, fun ctx hstat henv => ?_⟩
  rw [calculateEdge_recommendation]
  exact rebounds_env_pass _ _ ctx _ hstat (by rw [← calculateEdge_signals]; exact henv)

/-- C2 witness: a concrete rebounds context with edge score 1/4 (well above
every edge threshold) and environment strength exactly 0 is recommended
pass. -/
theorem C2_witness :
    ctxRebounds.stat_type = "rebounds"
    ∧ (calculateEdge ctxRebounds).edge_score = 1/4
    ∧ getSignalStrength (calculateEdge ctxRebounds).signals "environment" = some 0
    ∧ (calculateEdge ctxRebounds).recommendation = "pass" :=
  ⟨rfl, edge_ctxRebounds, env_ctxRebounds,
    C2_rebounds_neutral_env_pass.2 ctxRebounds rfl
      (Or.inr ⟨0, env_ctxRebounds, by norm_num⟩)⟩

/-- C6: for stat_type assists any edge score with 0.08 ≤ absolute value
< 0.15 is recommended pass whatever the confidence (the assists override
raises the minimum edge from the global 0.08 to 0.15), stated for
_get_recommendation and for calculate_edge; by contrast the same edge 0.10
and confidence 0.60 give the non-pass tier slight_over for a high-value
points context. -/
theorem C6_assists_minimum_edge :
    (∀ (edge conf : ℚ) (ctx : PropContext) (rs : List SignalResult),
      ctx.stat_type = "assists" → 8/100 ≤ |edge| → |edge| < 15/100 →
      getRecommendation edge conf ctx rs = "pass")
    ∧ (∀ ctx : PropContext, ctx.stat_type = "assists" →
      8/100 ≤ |(calculateEdge ctx).edge_score| →
      |(calculateEdge ctx).edge_score| < 15/100 →
      (calculateEdge ctx).recommendation = "pass")
    ∧ (∀ (ctx : PropContext) (rs : List SignalResult),
      ctx.stat_type = "points" → ctx.is_high_value = true →
      getRecommendation (1/10) (6/10) ctx rs = "slight_over") := by
  refine ⟨fun edge conf ctx rs h h1 h2 => assists_raised_floor edge conf ctx rs h h1 h2,
    fun ctx hstat h1 h2 => ?_, fun ctx rs hstat hhv => ?_⟩
  · rw [calculateEdge_recommendation]
    exact assists_raised_floor _ _ ctx _ hstat h1 h2
  · unfold getRecommendation
    rw [hstat]
    norm_num [standardRecommendation, abs, max_def, hhv]
    simp only [String.reduceEq, reduceIte]
    rfl

/-- C6 witness: edge 1/10 with confidence 6/10 on a concrete assists context
is pass, while the same numbers on a concrete high-value points context give
slight_over. -/
theorem C6_witness :
    getRecommendation (1/10) (6/10) ctxAssists [] = "pass"
    ∧ getRecommendation (1/10) (6/10) ctxPointsHV [] = "slight_over" :=
  ⟨C6_assists_minimum_edge.1 (1/10) (6/10) ctxAssists [] rfl (by norm_num [abs, max_def])
      (by norm_num [abs, max_def]),
   C6_assists_minimum_edge.2.2 ctxPointsHV [] rfl rfl⟩

/-- C5: for every PropContext, calculate_edge returns edge_score in [-1, 1]
and confidence in [0, 1]: each constructed SignalResult is clamped on
construction and every weight table sums over its included signals to
exactly 1, so the weighted combination stays in range even though it is not
re-clamped. -/
theorem C5_edge_in_range (ctx : PropContext) :
    -1 ≤ (calculateEdge ctx).edge_score ∧ (calculateEdge ctx).edge_score ≤ 1
    ∧ 0 ≤ (calculateEdge ctx).confidence ∧ (calculateEdge ctx).confidence ≤ 1 := by
  obtain ⟨h1, h2, h3, h4⟩ := weightedTotals_bounds (getWeightsForStat ctx.stat_type)
    (namedResults ctx) (fun p hp => (namedResults_ok ctx p hp).2)
  have htw := totalWeight_eq_one ctx
  rw [calculateEdge_edge_score, calculateEdge_confidence, htw, if_pos one_pos, div_one]
  rw [htw] at h1 h3
  have habs := abs_le.mp h1
  exact ⟨habs.1, habs.2, h2, h3⟩

/-- C7: calculate_edge returns exactly one result per signal, in the fixed
construction order of the six signals; a signal whose calculation raises is
replaced by a neutral zero-strength zero-confidence result carrying the error
text as evidence, while a signal that returns normally contributes its own
result unchanged — one failure never aborts or alters the rest. -/
theorem C7_error_isolation (ctx : PropContext) :
    (calculateEdge ctx).signals = (namedResults ctx).map (·.2)
    ∧ ((calculateEdge ctx).signals).length = 6
    ∧ ((calculateEdge ctx).signals).map SignalResult.signal_type =
        ["line_value", "trend", "usage", "matchup", "environment", "correlation"]
    ∧ (∀ (name : String) (calcFn : PropContext → Except String SignalResult)
        (e : String), calcFn ctx = .error e →
        runSignal name calcFn ctx = SignalResult.make name 0 0 ("Error: " ++ e))
    ∧ (∀ (name : String) (calcFn : PropContext → Except String SignalResult)
        (r : SignalResult), calcFn ctx = .ok r → runSignal name calcFn ctx = r) := by
  refine ⟨rfl, ?_, ?_, ?_, ?_⟩
  · rw [calculateEdge_signals]
    simp [namedResults, signalCalcs]
  · rw [calculateEdge_signals]
    simp only [namedResults, signalCalcs, List.map_cons, List.map_nil]
    rw [(runSignal_ok _ _ _ (lineValue_ok ctx)).1,
      (runSignal_ok _ _ _ (trend_ok ctx)).1,
      (runSignal_ok _ _ _ (usage_ok ctx)).1,
      (runSignal_ok _ _ _ (matchup_ok ctx)).1,
      (runSignal_ok _ _ _ (environment_ok ctx)).1,
      (runSignal_ok _ _ _ (correlation_ok ctx)).1]
  · intro name calcFn e h
    simp [runSignal, h]
  · intro name calcFn r h
    simp [runSignal, h]

/-- C7 witness: on the concrete rebounds context the usage signal raises and
is replaced by the neutral error result, while the environment signal in the
same run contributes its own normally computed result. -/
theorem C7_witness :
    runSignal "usage" usageCalculate ctxRebounds =
      SignalResult.make "usage" 0 0
        ("Error: " ++ "AttributeError: PropContext object has no attribute reb_frequency")
    ∧ runSignal "environment" environmentCalculate ctxRebounds =
        SignalResult.make "environment" 0 (3/10) "No significant environmental factors" := by
  constructor
  · exact (C7_error_isolation ctxRebounds).2.2.2.1 "usage" usageCalculate _ rfl
  · exact (C7_error_isolation ctxRebounds).2.2.2.2 "environment" environmentCalculate _
      (by norm_num [environmentCalculate, ctxRebounds])

/-- C8: every SignalResult has strength in [-1, 1] and confidence in [0, 1]
after construction, whatever real-valued arguments are supplied: out-of-range
arguments are clamped to the nearest bound and in-range arguments are kept. -/
theorem C8_clamping (t : String) (s c : ℚ) (e : String) :
    (-1 ≤ (SignalResult.make t s c e).strength
      ∧ (SignalResult.make t s c e).strength ≤ 1
      ∧ 0 ≤ (SignalResult.make t s c e).confidence
      ∧ (SignalResult.make t s c e).confidence ≤ 1)
    ∧ (s ≤ -1 → (SignalResult.make t s c e).strength = -1)
    ∧ (1 ≤ s → (SignalResult.make t s c e).strength = 1)
    ∧ (-1 ≤ s → s ≤ 1 → (SignalResult.make t s c e).strength = s)
    ∧ (c ≤ 0 → (SignalResult.make t s c e).confidence = 0)
    ∧ (1 ≤ c → (SignalResult.make t s c e).confidence = 1)
    ∧ (0 ≤ c → c ≤ 1 → (SignalResult.make t s c e).confidence = c) := by
  refine ⟨make_clamped t s c e, ?_, ?_, ?_, ?_, ?_, ?_⟩
  · intro h
    simp only [SignalResult.make, clampQ, max_def, min_def]
    split_ifs <;> linarith
  · intro h
    simp only [SignalResult.make, clampQ, max_def, min_def]
    split_ifs <;> linarith
  · intro h1 h2
    simp only [SignalResult.make, clampQ, max_def, min_def]
    split_ifs <;> linarith
  · intro h
    simp only [SignalResult.make, clampQ, max_def, min_def]
    split_ifs <;> linarith
  · intro h
    simp only [SignalResult.make, clampQ, max_def, min_def]
    split_ifs <;> linarith
  · intro h1 h2
    simp only [SignalResult.make, clampQ, max_def, min_def]
    split_ifs <;> linarith

/-- C8 witness: an out-of-range construction (strength 3, confidence -2) is
clamped to strength 1 and confidence 0. -/
theorem C8_witness :
    (SignalResult.make "test" 3 (-2) "w").strength = 1
    ∧ (SignalResult.make "test" 3 (-2) "w").confidence = 0 :=
  ⟨(C8_clamping "test" 3 (-2) "w").2.2.1 (by norm_num),
   (C8_clamping "test" 3 (-2) "w").2.2.2.2.1 (by norm_num)⟩

/-- C9: each entry of STAT_WEIGHTS — points, rebounds, assists, threes and
the _default fallback — lists six per-signal weights whose exact rational sum
is 1. -/
theorem C9_weight_tables_sum_one :
    (pointsWeights.map Prod.snd).sum = 1 ∧ pointsWeights.length = 6
    ∧ (reboundsWeights.map Prod.snd).sum = 1 ∧ reboundsWeights.length = 6
    ∧ (assistsWeights.map Prod.snd).sum = 1 ∧ assistsWeights.length = 6
    ∧ (threesWeights.map Prod.snd).sum = 1 ∧ threesWeights.length = 6
    ∧ (defaultWeights.map Prod.snd).sum = 1 ∧ defaultWeights.length = 6 := by
  norm_num [pointsWeights, reboundsWeights, assistsWeights, threesWeights,
    defaultWeights]

/-- C10: a strength of exactly 0 reports direction under, and an edge score
of exactly 0 makes calculate_edge report direction under and compute its
expected value from the under-side odds: the boundary for over is a strict
greater-than. -/
theorem C10_zero_is_under :
    (∀ r : SignalResult, r.strength = 0 → r.direction = "under")
    ∧ (∀ ctx : PropContext, (calculateEdge ctx).edge_score = 0 →
        (calculateEdge ctx).direction = "under"
        ∧ (calculateEdge ctx).expected_value =
            calcEV 0 (calculateEdge ctx).confidence ctx.under_odds) := by
  constructor
  · intro r h
    simp [SignalResult.direction, h]
  · intro ctx h
    have hdir : (calculateEdge ctx).direction = "under" := by
      rw [calculateEdge_direction, h]
      norm_num
    refine ⟨hdir, ?_⟩
    rw [calculateEdge_expected_value, h, hdir]
    simp

/-- C10 witness: a zero-strength result reports under, and on a concrete
context whose weighted edge score is exactly 0 the direction is under with
the expected value computed from the under odds. -/
theorem C10_witness :
    (SignalResult.make "test" 0 (1/2) "neutral").direction = "under"
    ∧ (calculateEdge ctxNeutral).direction = "under"
    ∧ (calculateEdge ctxNeutral).expected_value =
        calcEV 0 (calculateEdge ctxNeutral).confidence ctxNeutral.under_odds :=
  ⟨C10_zero_is_under.1 _ (by norm_num [SignalResult.make, clampQ, max_def, min_def]),
   (C10_zero_is_under.2 ctxNeutral edge_ctxNeutral).1,
   (C10_zero_is_under.2 ctxNeutral edge_ctxNeutral).2⟩

/-- C4: for a non-empty list of leg results drawn from WIN/LOSS/PUSH/VOID,
the parlay result is LOSS when any leg is LOSS, VOID when all legs are VOID,
WIN otherwise (no LOSS, any mix of WIN/PUSH/VOID), and legs_hit — the count
of WIN legs — never exceeds the number of legs. -/
theorem C4_parlay_policy (results : List LegResult) (_hne : results ≠ []) :
    (LegResult.LOSS ∈ results → settleParlayResult results = .LOSS)
    ∧ ((∀ r ∈ results, r = LegResult.VOID) → settleParlayResult results = .VOID)
    ∧ (LegResult.LOSS ∉ results → ¬ (∀ r ∈ results, r = LegResult.VOID) →
        settleParlayResult results = .WIN)
    ∧ legsHit results ≤ results.length := by
  refine ⟨?_, ?_, ?_, ?_⟩
  · intro hLoss
    have hall : ¬ (results.all (fun r => decide (r = LegResult.VOID)) = true) := by
      simp only [List.all_eq_true, decide_eq_true_eq]
      intro hv
      cases hv _ hLoss
    have hany : results.any (fun r => decide (r = LegResult.LOSS)) = true := by
      simp only [List.any_eq_true, decide_eq_true_eq]
      exact ⟨_, hLoss, rfl⟩
    simp only [settleParlayResult, if_neg hall, if_pos hany]
  · intro hv
    have hall : results.all (fun r => decide (r = LegResult.VOID)) = true := by
      simp only [List.all_eq_true, decide_eq_true_eq]
      exact hv
    simp only [settleParlayResult, if_pos hall]
  · intro hnl hnv
    have hall : ¬ (results.all (fun r => decide (r = LegResult.VOID)) = true) := by
      simp only [List.all_eq_true, decide_eq_true_eq]
      exact hnv
    have hany : ¬ (results.any (fun r => decide (r = LegResult.LOSS)) = true) := by
      simp only [List.any_eq_true, decide_eq_true_eq]
      rintro ⟨r, hr, rfl⟩
      exact hnl hr
    have hall3 : results.all
        (fun r => decide (r = LegResult.WIN ∨ r = LegResult.PUSH ∨ r = LegResult.VOID))
        = true := by
      simp only [List.all_eq_true, decide_eq_true_eq]
      intro r hr
      cases r with
      | LOSS => exact absurd hr hnl
      | WIN => exact Or.inl rfl
      | PUSH => exact Or.inr (Or.inl rfl)
      | VOID => exact Or.inr (Or.inr rfl)
    simp only [settleParlayResult, if_neg hall, if_neg hany, if_pos hall3]
  · unfold legsHit
    exact List.countP_le_length _

/-- C4 witness: WIN,WIN,LOSS grades LOSS; WIN,PUSH,VOID grades WIN with at
most 3 legs hit; VOID,VOID,VOID grades VOID. -/
theorem C4_witness :
    settleParlayResult [LegResult.WIN, LegResult.WIN, LegResult.LOSS] = .LOSS
    ∧ settleParlayResult [LegResult.WIN, LegResult.PUSH, LegResult.VOID] = .WIN
    ∧ settleParlayResult [LegResult.VOID, LegResult.VOID, LegResult.VOID] = .VOID
    ∧ legsHit [LegResult.WIN, LegResult.PUSH, LegResult.VOID] ≤ 3 :=
  ⟨(C4_parlay_policy _ (by simp)).1 (by simp),
   (C4_parlay_policy _ (by simp)).2.2.1 (by simp) (by simp),
   (C4_parlay_policy _ (by simp)).2.1 (by simp),
   (C4_parlay_policy [LegResult.WIN, LegResult.PUSH, LegResult.VOID] (by simp)).2.2.2⟩

/-- C3: settling a leg against a matched box-score row: zero logged minutes
gives VOID with actual value 0; with positive minutes and a known stat type
the grade is PUSH exactly when the realized value equals the line, and for
direction over (resp. under) WIN exactly when the value is above (resp.
below) the line and LOSS exactly otherwise — for every stat type. -/
theorem C3_leg_grading (leg : Leg) (st : List (String × ℚ)) :
    (statGet st "minutes" = 0 → settleLeg leg (some st) = ⟨some 0, .VOID⟩)
    ∧ (statGet st "minutes" > 0 →
      ∀ actual : ℚ, getStatValue st leg.stat_type = some actual →
        (settleLeg leg (some st)).actual_value = some actual
        ∧ ((settleLeg leg (some st)).result = .PUSH ↔ actual = leg.line)
        ∧ (leg.direction = "over" →
            ((settleLeg leg (some st)).result = .WIN ↔ actual > leg.line)
            ∧ ((settleLeg leg (some st)).result = .LOSS ↔ actual < leg.line))
        ∧ (leg.direction = "under" →
            ((settleLeg leg (some st)).result = .WIN ↔ actual < leg.line)
            ∧ ((settleLeg leg (some st)).result = .LOSS ↔ actual > leg.line))) := by
  constructor
  · intro h
    simp [settleLeg, h]
  · intro hmin actual hstat
    by_cases heq : actual = leg.line
    · constructor
      · simp [settleLeg, hmin.ne', hstat, heq]
      refine ⟨by simp [settleLeg, hmin.ne', hstat, heq], ?_, ?_⟩
      · intro hdir
        subst heq
        constructor <;> (simp [settleLeg, hmin.ne', hstat, hdir, lt_irrefl])
      · intro hdir
        subst heq
        by_cases hover : leg.direction = "over"
        · rw [hover] at hdir
          simp at hdir
        · constructor <;> (simp [settleLeg, hmin.ne', hstat, hover, lt_irrefl])
    · have hlg : actual < leg.line ∨ actual > leg.line := lt_or_gt_of_ne heq
      refine ⟨?_, ?_, ?_, ?_⟩
      · by_cases hover : leg.direction = "over" <;>
          simp [settleLeg, hmin.ne', hstat, heq, hover]
      · rcases hlg with hl | hg
        · by_cases hover : leg.direction = "over" <;>
            simp [settleLeg, hmin.ne', hstat, heq, hover, not_lt.mpr hl.le, hl]
        · by_cases hover : leg.direction = "over" <;>
            simp [settleLeg, hmin.ne', hstat, heq, hover, hg, not_lt.mpr hg.le]
      · intro hover
        rcases hlg with hl | hg
        · simp [settleLeg, hmin.ne', hstat, heq, hover, not_lt.mpr hl.le, hl]
        · simp [settleLeg, hmin.ne', hstat, heq, hover, hg, not_lt.mpr hg.le]
      · intro hunder
        have hover : ¬ leg.direction = "over" := by
          rw [hunder]
          simp
        rcases hlg with hl | hg
        · simp [settleLeg, hmin.ne', hstat, heq, hover, hl, not_lt.mpr hl.le]
        · simp [settleLeg, hmin.ne', hstat, heq, hover, hg, not_lt.mpr hg.le]

/-- C3 witness: an over leg with line 10 and a realized value of exactly 10
from a player with 30 minutes grades PUSH. -/
theorem C3_witness :
    (settleLeg legPush (some statsPush)).result = .PUSH
    ∧ statGet statsPush "minutes" > 0
    ∧ getStatValue statsPush "points" = some 10 := by
  have hmin : statGet statsPush "minutes" > 0 := by
    norm_num [statGet, statsPush, assocFind?]
  have hstat : getStatValue statsPush legPush.stat_type = some 10 := by
    simp [getStatValue, STAT_MAPPING, statGet, statsPush, legPush, assocFind?]
  exact ⟨((C3_leg_grading legPush statsPush).2 hmin 10 hstat).2.1.mpr rfl, hmin, hstat⟩

/-- C1 (failing evaluation): UsageSignal.calculate and MatchupSignal.calculate
read PropContext attributes that the dataclass does not define, so instead of
degrading to a neutral result they raise AttributeError: usage and matchup
both raise on a concrete rebounds context, and matchup raises on a concrete
assists context with the default opponent defensive rating. -/
theorem C1_signals_raise_attribute_error :
    usageCalculate ctxRebounds =
      .error "AttributeError: PropContext object has no attribute reb_frequency"
    ∧ matchupCalculate ctxRebounds =
      .error "AttributeError: PropContext object has no attribute opponent_dreb_pct"
    ∧ matchupCalculate ctxAssists =
      .error "AttributeError: PropContext object has no attribute pass_to_ast_rate" := by
  refine ⟨rfl, rfl, ?_⟩
  simp only [matchupCalculate, ctxAssists, String.reduceEq, reduceIte]
  norm_num

end NBASGP
